import Mathlib

/-!
Shallow embedding of `google/resource_google_project.go` from the
terraform-provider-google repository, together with proofs of the
specification claims about it.

The Go file implements lifecycle management (Create / Read / Update /
Delete) for a Google Cloud project resource.  Remote API calls are
modelled by environment records supplying the response of each call;
mutation of the Terraform `ResourceData` record is modelled by explicit
state passing: each embedded operation returns the final record together
with an optional error message (Go returns `error`, `nil` = success).
-/

set_option maxRecDepth 10000

namespace GoogleProject

/-- The Terraform resource record (`*schema.ResourceData`) restricted to the
fields this resource declares.  Go's `d.GetOk` reports a string field as set
exactly when it is non-empty (the zero value), which is how the embedding
tests presence.  Labels are a list of key/value pairs. -/
structure Record where
  id : String := ""
  project_id : String := ""
  name : String := ""
  number : String := ""
  org_id : String := ""
  folder_id : String := ""
  billing_account : String := ""
  skip_delete : Bool := false
  auto_create_network : Bool := true
  labels : List (String × String) := []
deriving Repr, DecidableEq

/-- `cloudresourcemanager.ResourceId`: a parent reference with an id and a
type tag ("organization" or "folder"). -/
structure ResourceId where
  id : String
  type : String
deriving Repr, DecidableEq

/-- `cloudresourcemanager.Project`: the remote project object. -/
structure Project where
  projectId : String := ""
  name : String := ""
  projectNumber : Int := 0
  lifecycleState : String := "ACTIVE"
  labels : List (String × String) := []
  parent : Option ResourceId := none
deriving Repr, DecidableEq

/-- Source: `prefixedProject` (resource_google_project.go:213). -/
def prefixedProject (pid : String) : String :=
  "projects/" ++ pid

/-- Go's `strings.HasPrefix(s, pre)`: byte comparison of the leading bytes,
rendered here on the character lists of the two strings. -/
def strHasPrefix (s pre : String) : Bool :=
  pre.data.isPrefixOf s.data

/-- Source: `parseFolderId` (resource_google_project.go:235).
`folderId[8:]` is `String.drop 8` (the prefix "folders/" is 8 ASCII bytes,
hence 8 characters). -/
def parseFolderId (folderId : String) : String :=
  if strHasPrefix folderId "folders/" then folderId.drop 8 else folderId

/-- Source: `getParentResourceId` (resource_google_project.go:217).  The Go
function mutates `p.Parent`; the embedding takes the incoming parent and
returns the parent after both `GetOk` branches have run.  Note that the
folder branch runs second and overwrites whatever the org branch wrote. -/
def getParentResourceId (d : Record) (parent : Option ResourceId) : Option ResourceId :=
  let parent := if d.org_id ≠ "" then some { id := d.org_id, type := "organization" } else parent
  let parent :=
    if d.folder_id ≠ "" then some { id := parseFolderId d.folder_id, type := "folder" }
    else parent
  parent

/-- Environment of a single `resourceGoogleProjectRead` call: the response of
`Projects.Get` (error = HTTP status code) and of
`Projects.GetBillingInfo` (the `BillingAccountName` field of the reply). -/
structure ReadEnv where
  getProject : Except Nat Project := Except.error 404
  getBillingInfo : Except Unit String := Except.ok ""

/-- Modelled from the spec: `handleNotFoundError` lives outside this source
file.  Per the spec, a remote not-found during Read removes the record from
state (clears the identifier) and returns success, while any other fetch
error is fatal. -/
def handleNotFoundError (code : Nat) (d : Record) : Record × Option String :=
  if code = 404 then ({ d with id := "" }, none)
  else (d, some "Error reading project")

/-- Source: the `if p.Parent != nil` switch of `resourceGoogleProjectRead`
(lines 181-190); Go's `switch` on the type tag is an if-chain with no
default (other type tags set nothing). -/
def readParentFields (d : Record) : Option ResourceId → Record
  | none => d
  | some par =>
    if par.type = "organization" then { d with org_id := par.id, folder_id := "" }
    else if par.type = "folder" then { d with folder_id := par.id, org_id := "" }
    else d

/-- Source: `resourceGoogleProjectRead` (resource_google_project.go:159).
Returns the record after all `d.Set` calls that executed, plus the optional
error.  `strings.TrimPrefix(x, "billingAccounts/")` is embedded as dropping
16 characters when the prefix is present ("billingAccounts/" is 16 ASCII
bytes). -/
def resourceGoogleProjectRead (env : ReadEnv) (d : Record) : Record × Option String :=
  let pid := d.id
  match env.getProject with
  | Except.error code => handleNotFoundError code d
  | Except.ok p =>
    if p.lifecycleState ≠ "ACTIVE" then
      ({ d with id := "" }, none)
    else
      let d := { d with
        project_id := pid
        number := toString p.projectNumber
        name := p.name
        labels := p.labels }
      let d := readParentFields d p.parent
      match env.getBillingInfo with
      | Except.error _ =>
        (d, some ("Error reading billing account for project " ++ prefixedProject pid))
      | Except.ok baName =>
        if baName ≠ "" then
          let _ba := if strHasPrefix baName "billingAccounts/" then baName.drop 16 else baName
          if baName = _ba then
            (d, some ("Error parsing billing account for project " ++ prefixedProject pid ++
              ". Expected value to begin with billingAccounts/ but got " ++ baName))
          else
            ({ d with billing_account := _ba }, none)
        else
          (d, none)

/-- Outcome of a Go function in this file: normal return with `nil` error,
normal return with a non-nil error, or a runtime panic (Go crash). -/
inductive GoResult where
  | ok : GoResult
  | err (msg : String) : GoResult
  | crash (msg : String) : GoResult
deriving Repr, DecidableEq

/-- Terraform's dynamic `d.Get(key)` restricted to the string fields this
resource's schema declares.  Per the `helper/schema` contract, `Get` returns
the value for a key that exists in the schema and Go `nil` (here `none`) for
a key absent from the schema; an unchecked string type assertion on that
`nil` panics. -/
def Record.getString (d : Record) (key : String) : Option String :=
  match key with
  | "project_id" => some d.project_id
  | "name" => some d.name
  | "number" => some d.number
  | "org_id" => some d.org_id
  | "folder_id" => some d.folder_id
  | "billing_account" => some d.billing_account
  | _ => none

/-- `cloudbilling.ProjectBillingInfo`: the billing-update payload.  The zero
value (empty struct) is the empty payload. -/
structure ProjectBillingInfo where
  billingAccountName : String := ""
deriving Repr, DecidableEq

/-- Source: lines 364-368 of `updateProjectBillingAccount`: build the
`ProjectBillingInfo` payload from the desired billing account. -/
def billingUpdatePayload (name : String) : ProjectBillingInfo :=
  let ba : ProjectBillingInfo := {}
  if name ≠ "" then { ba with billingAccountName := "billingAccounts/" ++ name } else ba

/-- Environment of one `updateProjectBillingAccount` call: the result of
`Projects.UpdateBillingInfo` and the environment of each re-read attempt
(indexed by attempt number). -/
structure BillingEnv where
  updateBillingInfo : Except Unit Unit := Except.ok ()
  reads : Nat → ReadEnv := fun _ => {}

/-- Source: the `for retries := 0; retries < 3; retries++` loop of
`updateProjectBillingAccount` (lines 377-386), with the retry budget as
fuel.  Returns the record after the loop, the error of a failed re-read (Go
returns it immediately), and the number of re-reads performed. -/
def billingReadRetryLoop (reads : Nat → ReadEnv) (name : String) (d : Record) :
    Nat → Record × Option String × Nat
  | 0 => (d, none, 0)
  | n + 1 =>
    match resourceGoogleProjectRead (reads 0) d with
    | (d', some e) => (d', some e, 1)
    | (d', none) =>
      if d'.billing_account = name then (d', none, 1)
      else
        let r := billingReadRetryLoop (fun i => reads (i + 1)) name d' n
        (r.1, r.2.1, r.2.2 + 1)

/-- Source: `updateProjectBillingAccount` (resource_google_project.go:361).
On submission failure the billing field is reset to empty and the error
surfaced.  After a successful submission the record is re-read up to 3
times, stopping early on a match.  The final mismatch branch evaluates
`d.Get("billding_account").(string)` — note the misspelled key, which is
absent from the schema, so `Get` yields nil and the type assertion panics:
that branch is a crash, not an error return. -/
def updateProjectBillingAccount (env : BillingEnv) (d : Record) : Record × GoResult :=
  let pid := d.id
  let name := d.billing_account
  let _ba := billingUpdatePayload name
  match env.updateBillingInfo with
  | Except.error _ =>
    ({ d with billing_account := "" },
      GoResult.err ("Error setting billing account " ++ name ++ " for project " ++
        prefixedProject pid))
  | Except.ok _ =>
    match billingReadRetryLoop env.reads name d 3 with
    | (d, some e, _) => (d, GoResult.err e)
    | (d, none, _) =>
      if d.billing_account ≠ name then
        match d.getString "billding_account" with
        | none =>
          (d, GoResult.crash "interface conversion: interface is nil, not string")
        | some s =>
          (d, GoResult.err ("Timed out waiting for billing account to return correct value. Waiting for " ++
            s ++ ", got " ++ name ++ "."))
      else (d, GoResult.ok)

/-- Environment of one `resourceGoogleProjectDelete` call. -/
structure DeleteEnv where
  deleteProject : Except Unit Unit := Except.ok ()

/-- Source: `resourceGoogleProjectDelete` (resource_google_project.go:308).
The third component counts the remote `Projects.Delete` calls issued. -/
def resourceGoogleProjectDelete (env : DeleteEnv) (d : Record) :
    Record × Option String × Nat :=
  if !d.skip_delete then
    let pid := d.id
    match env.deleteProject with
    | Except.error _ => (d, some ("Error deleting project " ++ pid), 1)
    | Except.ok _ => ({ d with id := "" }, none, 1)
  else
    ({ d with id := "" }, none, 0)

/-- A firewall rule as returned by the compute listing API. -/
structure Firewall where
  name : String
deriving Repr, DecidableEq

/-- One page of the firewall listing response. -/
structure FirewallList where
  items : List Firewall := []
  nextPageToken : String := ""
deriving Repr, DecidableEq

/-- A firewall listing request as actually issued: project, filter and the
page-token parameter attached to the request. -/
structure ListRequest where
  projectId : String
  filter : String
  pageToken : String
deriving Repr, DecidableEq

/-- Environment of `forceDeleteComputeNetwork`: the response of the i-th
listing call (which may depend on the request issued), per-firewall delete
and operation-wait results, and the result of the final
`deleteComputeNetwork` call (defined elsewhere in the repository). -/
structure NetworkEnv where
  firewallsList : Nat → ListRequest → Except Unit FirewallList := fun _ _ => Except.ok {}
  firewallDelete : String → Except Unit Unit := fun _ => Except.ok ()
  firewallWait : String → Option String := fun _ => none
  deleteNetworkResult : Option String := none

/-- Source: the inner `for _, firewall := range resp.Items` loop of
`forceDeleteComputeNetwork` (lines 343-352): delete each listed rule and
wait for its operation, aborting on the first failure. -/
def deleteFirewallRules (env : NetworkEnv) : List Firewall → Option String
  | [] => none
  | fw :: rest =>
    match env.firewallDelete fw.name with
    | Except.error _ => some ("Error deleting firewall " ++ fw.name)
    | Except.ok _ =>
      match env.firewallWait fw.name with
      | some e => some e
      | none => deleteFirewallRules env rest

/-- Source: the `for paginate := true; paginate;` loop of
`forceDeleteComputeNetwork` (lines 334-356), with fuel bounding the number
of iterations; `i` numbers the listing calls.  The source builds each
listing call as `Firewalls.List(projectId).Filter(filter).Do()` and never
sets a page token on it, so every issued request carries an empty page
token — even though the loop stores `resp.NextPageToken` in `token` and
keeps iterating while it is non-empty.  Returns the list requests issued
in order and the final result. -/
def forceDeleteLoop (env : NetworkEnv) (projectId networkLink : String) (i : Nat) :
    Nat → List ListRequest × Option String
  | 0 => ([], some "fuel exhausted: pagination loop still running")
  | n + 1 =>
    let filter := "network eq " ++ networkLink
    let req : ListRequest := { projectId := projectId, filter := filter, pageToken := "" }
    match env.firewallsList i req with
    | Except.error _ => ([req], some "Error listing firewall rules in proj")
    | Except.ok resp =>
      match deleteFirewallRules env resp.items with
      | some e => ([req], some e)
      | none =>
        let token := resp.nextPageToken
        if token ≠ "" then
          let r := forceDeleteLoop env projectId networkLink (i + 1) n
          (req :: r.1, r.2)
        else
          ([req], env.deleteNetworkResult)

/-- Source: `forceDeleteComputeNetwork` (resource_google_project.go:330). -/
def forceDeleteComputeNetwork (env : NetworkEnv) (projectId networkName : String)
    (fuel : Nat) : List ListRequest × Option String :=
  let networkLink := "https://www.googleapis.com/compute/v1/projects/" ++ projectId ++
    "/global/networks/" ++ networkName
  forceDeleteLoop env projectId networkLink 0 fuel

/-- Modelled from the spec: `expandLabels` is defined elsewhere in the
repository; per the spec it converts the record's declared label map into
the remote API's string-to-string label map. -/
def expandLabels (d : Record) : List (String × String) :=
  d.labels

/-- Environment of one `resourceGoogleProjectUpdate` call: the `Projects.Get`
response (error = HTTP status code), the response of the i-th
`Projects.Update` call, and the billing environment. -/
structure UpdateEnv where
  getProject : Except Nat Project := Except.ok {}
  projectUpdate : Nat → Project → Except Unit Project := fun _ p => Except.ok p
  billing : BillingEnv := {}

/-- Source: the `d.HasChange("labels")` branch of `resourceGoogleProjectUpdate`
(lines 294-302).  `i` is the index of the next `Projects.Update` call and
`acc` the payloads submitted so far. -/
def updateLabelsStep (env : UpdateEnv) (hasLabels : Bool) (project_name : String)
    (d : Record) (p : Project) (i : Nat) (acc : List Project) :
    Record × GoResult × List Project :=
  if hasLabels then
    let p := { p with labels := expandLabels d }
    match env.projectUpdate i p with
    | Except.error _ => (d, GoResult.err ("Error updating project " ++ project_name), acc ++ [p])
    | Except.ok _ => (d, GoResult.ok, acc ++ [p])
  else (d, GoResult.ok, acc)

/-- Source: the `d.HasChange("billing_account")` branch of
`resourceGoogleProjectUpdate` (lines 286-291); a billing failure (or crash)
aborts the remaining steps. -/
def updateBillingStep (env : UpdateEnv) (hasBilling hasLabels : Bool)
    (project_name : String) (d : Record) (p : Project) (i : Nat)
    (acc : List Project) : Record × GoResult × List Project :=
  if hasBilling then
    match updateProjectBillingAccount env.billing d with
    | (d', GoResult.ok) => updateLabelsStep env hasLabels project_name d' p i acc
    | (d', r) => (d', r, acc)
  else updateLabelsStep env hasLabels project_name d p i acc

/-- Source: the `d.HasChange("org_id") || d.HasChange("folder_id")` branch of
`resourceGoogleProjectUpdate` (lines 273-283). -/
def updateParentStep (env : UpdateEnv) (hasParent hasBilling hasLabels : Bool)
    (project_name : String) (d : Record) (p : Project) (i : Nat)
    (acc : List Project) : Record × GoResult × List Project :=
  if hasParent then
    let p := { p with parent := getParentResourceId d p.parent }
    match env.projectUpdate i p with
    | Except.error _ => (d, GoResult.err ("Error updating project " ++ project_name), acc ++ [p])
    | Except.ok p' =>
      updateBillingStep env hasBilling hasLabels project_name d p' (i + 1) (acc ++ [p])
  else updateBillingStep env hasBilling hasLabels project_name d p i acc

/-- Source: the `d.HasChange("name")` branch of `resourceGoogleProjectUpdate`
(lines 262-270). -/
def updateNameStep (env : UpdateEnv) (hasName hasParent hasBilling hasLabels : Bool)
    (project_name : String) (d : Record) (p : Project) (i : Nat)
    (acc : List Project) : Record × GoResult × List Project :=
  if hasName then
    let p := { p with name := project_name }
    match env.projectUpdate i p with
    | Except.error _ => (d, GoResult.err ("Error updating project " ++ project_name), acc ++ [p])
    | Except.ok p' =>
      updateParentStep env hasParent hasBilling hasLabels project_name d p' (i + 1) (acc ++ [p])
  else updateParentStep env hasParent hasBilling hasLabels project_name d p i acc

/-- Source: `resourceGoogleProjectUpdate` (resource_google_project.go:243).
`old` is the prior state of the record, so that `d.HasChange(f)` is `old.f ≠
d.f` (Terraform's change tracking compares state against config and is not
affected by `d.Set` calls made during the apply).  The change flags are
therefore computed once at entry.  Returns the final record, the result, and
the payloads of the `Projects.Update` calls issued, in order. -/
def resourceGoogleProjectUpdate (env : UpdateEnv) (old d : Record) :
    Record × GoResult × List Project :=
  let pid := d.id
  let project_name := d.name
  match env.getProject with
  | Except.error code =>
    if code = 404 then (d, GoResult.err ("Project " ++ pid ++ " does not exist."), [])
    else (d, GoResult.err ("Error checking project " ++ pid), [])
  | Except.ok p =>
    updateNameStep env (old.name != d.name)
      (old.org_id != d.org_id || old.folder_id != d.folder_id)
      (old.billing_account != d.billing_account)
      (old.labels != d.labels)
      project_name d p 0 []

/-- The observable events of a `resourceGoogleProjectCreate` run, in program
order. -/
inductive CreateEvent where
  | callCreate : CreateEvent
  | setId (id : String) : CreateEvent
  | callWait : CreateEvent
  | callBilling : CreateEvent
  | callRead : CreateEvent
  | callEnableService : CreateEvent
  | callDeleteNetwork : CreateEvent
deriving Repr, DecidableEq

/-- Environment of one `resourceGoogleProjectCreate` call. -/
structure CreateEnv where
  projectCreate : Except Unit Unit := Except.ok ()
  operationWait : Option String := none
  billing : BillingEnv := {}
  read : ReadEnv := {}
  enableService : Option String := none
  network : NetworkEnv := {}
  networkFuel : Nat := 1

/-- Source: lines 137-156 of `resourceGoogleProjectCreate`: the re-read after
creation and, when auto-create-network is false, the compute-service
enablement and default-network deletion.  `tr` is the event trace so far. -/
def createReadStep (env : CreateEnv) (projectId : String) (d : Record)
    (tr : List CreateEvent) : Record × GoResult × List CreateEvent :=
  match resourceGoogleProjectRead env.read d with
  | (d', some e) => (d', GoResult.err e, tr ++ [CreateEvent.callRead])
  | (d', none) =>
    let tr := tr ++ [CreateEvent.callRead]
    if !d'.auto_create_network then
      match env.enableService with
      | some e =>
        (d', GoResult.err ("Error enabling the Compute Engine API required to delete the default network: " ++ e),
          tr ++ [CreateEvent.callEnableService])
      | none =>
        let tr := tr ++ [CreateEvent.callEnableService, CreateEvent.callDeleteNetwork]
        match (forceDeleteComputeNetwork env.network projectId "default" env.networkFuel).2 with
        | some e =>
          (d', GoResult.err ("Error deleting default network in project " ++
            projectId ++ ": " ++ e), tr)
        | none => (d', GoResult.ok, tr)
    else (d', GoResult.ok, tr)

/-- Source: lines 129-135 of `resourceGoogleProjectCreate`: the optional
billing-account linkage after the creation wait; a billing failure (or
crash) aborts, success falls through to the re-read. -/
def createBillingStep (env : CreateEnv) (projectId : String) (d : Record)
    (tr : List CreateEvent) : Record × GoResult × List CreateEvent :=
  if d.billing_account ≠ "" then
    match updateProjectBillingAccount env.billing d with
    | (d', GoResult.ok) => createReadStep env projectId d' (tr ++ [CreateEvent.callBilling])
    | (d', r) => (d', r, tr ++ [CreateEvent.callBilling])
  else createReadStep env projectId d tr

/-- Source: `resourceGoogleProjectCreate` (resource_google_project.go:95).
Returns the final record, the result, and the event trace in program order.
The identifier is set (`d.SetId(pid)`) right after `Projects.Create`
succeeds and before the operation wait; a wait failure clears it again. -/
def resourceGoogleProjectCreate (env : CreateEnv) (d : Record) :
    Record × GoResult × List CreateEvent :=
  let pid := d.project_id
  let project : Project := { projectId := pid, name := d.name }
  let project := { project with parent := getParentResourceId d project.parent }
  let project := if d.labels ≠ [] then { project with labels := expandLabels d } else project
  match env.projectCreate with
  | Except.error _ =>
    (d, GoResult.err ("Error creating project " ++ project.projectId ++ " (" ++
      project.name ++ ")."), [CreateEvent.callCreate])
  | Except.ok _ =>
    let d := { d with id := pid }
    let tr := [CreateEvent.callCreate, CreateEvent.setId pid, CreateEvent.callWait]
    match env.operationWait with
    | some waitErr =>
      ({ d with id := "" }, GoResult.err waitErr, tr ++ [CreateEvent.setId ""])
    | none => createBillingStep env project.projectId d tr

/-! ## Helper lemmas -/

theorem append_drop_of_strHasPrefix (s p : String) (h : strHasPrefix s p = true) :
    p ++ s.drop p.length = s := by
  apply String.ext
  obtain ⟨t, ht⟩ := List.isPrefixOf_iff_prefix.mp h
  show (p ++ s.drop p.length).data = s.data
  rw [String.data_append, String.data_drop, ← ht]
  show p.data ++ (p.data ++ t).drop p.data.length = p.data ++ t
  rw [List.drop_left]

theorem ne_drop_of_strHasPrefix (s p : String) (h : strHasPrefix s p = true)
    (hp : p ≠ "") : s ≠ s.drop p.length := by
  obtain ⟨t, ht⟩ := List.isPrefixOf_iff_prefix.mp h
  intro hEq
  have hdata : s.data = (s.drop p.length).data := congrArg String.data hEq
  rw [String.data_drop, ← ht] at hdata
  rw [show p.length = p.data.length from rfl, List.drop_left] at hdata
  have hlen := congrArg List.length hdata
  rw [List.length_append] at hlen
  have hzero : p.data.length = 0 := by omega
  exact hp (String.ext (by simpa using List.length_eq_zero.mp hzero))

theorem readParentFields_billing_account (d : Record) (par : Option ResourceId) :
    (readParentFields d par).billing_account = d.billing_account := by
  rcases par with _ | par
  · rfl
  · by_cases h1 : par.type = "organization"
    · simp [readParentFields, h1]
    · by_cases h2 : par.type = "folder" <;> simp [readParentFields, h1, h2]

/-! ## Claims about Read -/

/-- Claim C5: for every Read where the fetched project's lifecycle state is
any value other than "ACTIVE", the record's identifier is cleared and Read
returns success; no further fields are read or set (the result record is the
input record with only the identifier cleared). -/
theorem read_inactive_clears_record (env : ReadEnv) (d : Record) (p : Project)
    (hget : env.getProject = Except.ok p) (hstate : p.lifecycleState ≠ "ACTIVE") :
    resourceGoogleProjectRead env d = ({ d with id := "" }, none) := by
  unfold resourceGoogleProjectRead
  rw [hget]
  simp [hstate]

/-- Witness for C5 at a concrete input. -/
theorem read_inactive_clears_record_witness :
    resourceGoogleProjectRead
        { getProject := Except.ok { lifecycleState := "DELETE_REQUESTED" },
          getBillingInfo := Except.ok "" }
        { id := "my-project" } =
      ({ ({ id := "my-project" } : Record) with id := "" }, none) :=
  read_inactive_clears_record _ _ _ rfl (by decide)

/-- Claim C4: on a Read of an active project whose remote billing-account
name is non-empty, the stored billing field is the remote name with the
"billingAccounts/" prefix stripped exactly once (prepending the prefix to
the stored value reconstructs the remote name), and Read succeeds; if the
non-empty remote name does not begin with "billingAccounts/", Read returns
an error and the billing field keeps its previous value. -/
theorem read_billing_trimmed (env : ReadEnv) (d : Record) (p : Project)
    (ba : String) (hget : env.getProject = Except.ok p)
    (hactive : p.lifecycleState = "ACTIVE")
    (hba : env.getBillingInfo = Except.ok ba) (hne : ba ≠ "") :
    (strHasPrefix ba "billingAccounts/" = true →
      (resourceGoogleProjectRead env d).2 = none ∧
      (resourceGoogleProjectRead env d).1.billing_account = ba.drop 16 ∧
      "billingAccounts/" ++ (resourceGoogleProjectRead env d).1.billing_account = ba) ∧
    (strHasPrefix ba "billingAccounts/" = false →
      (∃ msg, (resourceGoogleProjectRead env d).2 = some msg) ∧
      (resourceGoogleProjectRead env d).1.billing_account = d.billing_account) := by
  unfold resourceGoogleProjectRead
  rw [hget, hba]
  simp only [hactive, ne_eq, not_true_eq_false, if_false, ite_not]
  constructor
  · intro h
    have hne16 : ba ≠ ba.drop 16 := by
      have := ne_drop_of_strHasPrefix ba "billingAccounts/" h (by decide)
      simpa using this
    have happ : "billingAccounts/" ++ ba.drop 16 = ba := by
      have := append_drop_of_strHasPrefix ba "billingAccounts/" h
      simpa using this
    simp [h, hne, hne16]
    exact happ
  · intro h
    simp [h, hne, readParentFields_billing_account]

/-- Witness for C4 at concrete inputs: one remote name with the prefix, one
without. -/
theorem read_billing_trimmed_witness :
    ((resourceGoogleProjectRead
        { getProject := Except.ok {}, getBillingInfo := Except.ok "billingAccounts/01-AB" }
        { id := "p", billing_account := "old" }).2 = none ∧
      (resourceGoogleProjectRead
        { getProject := Except.ok {}, getBillingInfo := Except.ok "billingAccounts/01-AB" }
        { id := "p", billing_account := "old" }).1.billing_account = ("billingAccounts/01-AB").drop 16 ∧
      "billingAccounts/" ++ (resourceGoogleProjectRead
        { getProject := Except.ok {}, getBillingInfo := Except.ok "billingAccounts/01-AB" }
        { id := "p", billing_account := "old" }).1.billing_account = "billingAccounts/01-AB") ∧
    ((∃ msg, (resourceGoogleProjectRead
        { getProject := Except.ok {}, getBillingInfo := Except.ok "01-AB" }
        { id := "p", billing_account := "old" }).2 = some msg) ∧
      (resourceGoogleProjectRead
        { getProject := Except.ok {}, getBillingInfo := Except.ok "01-AB" }
        { id := "p", billing_account := "old" }).1.billing_account =
        ({ id := "p", billing_account := "old" } : Record).billing_account) :=
  ⟨(read_billing_trimmed _ _ _ _ rfl rfl rfl (by decide)).1 (by decide),
   (read_billing_trimmed _ _ _ _ rfl rfl rfl (by decide)).2 (by decide)⟩

/-- Claim C10: when Read succeeds and the remote billing info reports an
empty billing-account name, the record's billing field is left unchanged:
the previously stored value persists. -/
theorem read_empty_billing_preserved (env : ReadEnv) (d : Record) (p : Project)
    (hget : env.getProject = Except.ok p) (hactive : p.lifecycleState = "ACTIVE")
    (hba : env.getBillingInfo = Except.ok "") :
    (resourceGoogleProjectRead env d).2 = none ∧
    (resourceGoogleProjectRead env d).1.billing_account = d.billing_account := by
  unfold resourceGoogleProjectRead
  rw [hget, hba]
  simp [hactive, readParentFields_billing_account]

/-- Witness for C10 at a concrete input: a record holding billing account
"stale" keeps it when the remote linkage is empty. -/
theorem read_empty_billing_preserved_witness :
    (resourceGoogleProjectRead { getProject := Except.ok {}, getBillingInfo := Except.ok "" }
        { id := "p", billing_account := "stale" }).2 = none ∧
    (resourceGoogleProjectRead { getProject := Except.ok {}, getBillingInfo := Except.ok "" }
        { id := "p", billing_account := "stale" }).1.billing_account =
      ({ id := "p", billing_account := "stale" } : Record).billing_account :=
  read_empty_billing_preserved _ _ _ rfl rfl rfl

/-! ## Claims about parent resolution -/

/-- Claim C2, counterexample: with both parent fields set (org_id "123456",
folder_id "98765"), resolution does NOT prefer the organization — the folder
branch runs last and wins, so the resolved parent is the folder even though
the organization field is set. -/
theorem getParentResourceId_both_set_counterexample :
    getParentResourceId { org_id := "123456", folder_id := "98765" } none ≠
      some { id := "123456", type := "organization" } ∧
    getParentResourceId { org_id := "123456", folder_id := "98765" } none =
      some { id := "98765", type := "folder" } := by
  decide

/-- Claim C2 (amended): whenever the folder field is set the resolved parent
is the folder (type "folder", "folders/" prefix stripped) — even when the
organization field is also set, since the folder branch runs second and
overwrites; when only the organization field is set the parent is the
organization (type "organization"); when neither is set the incoming parent
is untouched.  Stripping is exact: prepending "folders/" to the parsed id
reconstructs a prefixed folder id, and an unprefixed folder id is used
verbatim. -/
theorem getParentResourceId_spec (d : Record) (parent : Option ResourceId) :
    (d.folder_id ≠ "" →
      getParentResourceId d parent =
        some { id := parseFolderId d.folder_id, type := "folder" }) ∧
    (d.folder_id = "" → d.org_id ≠ "" →
      getParentResourceId d parent = some { id := d.org_id, type := "organization" }) ∧
    (d.folder_id = "" → d.org_id = "" → getParentResourceId d parent = parent) ∧
    (strHasPrefix d.folder_id "folders/" = true →
      "folders/" ++ parseFolderId d.folder_id = d.folder_id) ∧
    (strHasPrefix d.folder_id "folders/" = false →
      parseFolderId d.folder_id = d.folder_id) := by
  refine ⟨fun hf => ?_, fun hf ho => ?_, fun hf ho => ?_, fun hp => ?_, fun hp => ?_⟩
  · simp [getParentResourceId, hf]
  · simp [getParentResourceId, hf, ho]
  · simp [getParentResourceId, hf, ho]
  · have := append_drop_of_strHasPrefix d.folder_id "folders/" hp
    simpa [parseFolderId, hp] using this
  · simp [parseFolderId, hp]

/-- Witness for the amended C2 at concrete inputs. -/
theorem getParentResourceId_spec_witness :
    getParentResourceId { org_id := "1", folder_id := "folders/42" } none =
      some { id := parseFolderId "folders/42", type := "folder" } ∧
    getParentResourceId { org_id := "1", folder_id := "" } none =
      some { id := "1", type := "organization" } ∧
    "folders/" ++ parseFolderId "folders/42" = "folders/42" :=
  ⟨(getParentResourceId_spec { org_id := "1", folder_id := "folders/42" } none).1 (by decide),
   (getParentResourceId_spec { org_id := "1", folder_id := "" } none).2.1 rfl (by decide),
   (getParentResourceId_spec { org_id := "1", folder_id := "folders/42" } none).2.2.2.1 (by decide)⟩

/-! ## Claims about billing linkage and delete -/

/-- Claim C7: an empty desired billing value produces the empty
`ProjectBillingInfo` payload (no billing-account name distinct from the
struct's zero value), and a non-empty desired value produces a payload whose
name is exactly "billingAccounts/" concatenated with the value. -/
theorem billingUpdatePayload_spec (name : String) :
    (name = "" → billingUpdatePayload name = ({} : ProjectBillingInfo)) ∧
    (name ≠ "" →
      (billingUpdatePayload name).billingAccountName = "billingAccounts/" ++ name) := by
  constructor <;> intro h <;> simp [billingUpdatePayload, h]

/-- Witness for C7 at concrete inputs. -/
theorem billingUpdatePayload_spec_witness :
    billingUpdatePayload "" = ({} : ProjectBillingInfo) ∧
    (billingUpdatePayload "0A-1B").billingAccountName = "billingAccounts/" ++ "0A-1B" :=
  ⟨(billingUpdatePayload_spec "").1 rfl, (billingUpdatePayload_spec "0A-1B").2 (by decide)⟩

/-- Claim C9: Delete with the skip-delete flag set makes zero remote delete
calls and clears the identifier; without the flag it makes exactly one
remote delete call — success clears the identifier, failure returns an error
and leaves the record (hence its identifier) untouched. -/
theorem delete_spec (env : DeleteEnv) (d : Record) :
    (d.skip_delete = true →
      resourceGoogleProjectDelete env d = ({ d with id := "" }, none, 0)) ∧
    (d.skip_delete = false → env.deleteProject = Except.ok () →
      resourceGoogleProjectDelete env d = ({ d with id := "" }, none, 1)) ∧
    (d.skip_delete = false → ∀ e, env.deleteProject = Except.error e →
      resourceGoogleProjectDelete env d =
        (d, some ("Error deleting project " ++ d.id), 1)) := by
  refine ⟨fun hs => ?_, fun hs hok => ?_, fun hs e herr => ?_⟩
  · simp [resourceGoogleProjectDelete, hs]
  · simp [resourceGoogleProjectDelete, hs, hok]
  · simp [resourceGoogleProjectDelete, hs, herr]

/-- Witness for C9 at concrete inputs: skip-delete set, remote success, and
remote failure. -/
theorem delete_spec_witness :
    resourceGoogleProjectDelete {} { id := "p", skip_delete := true } =
      ({ ({ id := "p", skip_delete := true } : Record) with id := "" }, none, 0) ∧
    resourceGoogleProjectDelete {} { id := "p" } =
      ({ ({ id := "p" } : Record) with id := "" }, none, 1) ∧
    resourceGoogleProjectDelete { deleteProject := Except.error () } { id := "p" } =
      (({ id := "p" } : Record), some ("Error deleting project " ++ "p"), 1) :=
  ⟨(delete_spec {} { id := "p", skip_delete := true }).1 rfl,
   (delete_spec {} { id := "p" }).2.1 rfl rfl,
   (delete_spec { deleteProject := Except.error () } { id := "p" }).2.2 rfl () rfl⟩

/-- Claim C3, evaluated at the failing input: desired billing account "AAA",
submission succeeds, every read-back observes remote name
"billingAccounts/BBB".  After the 3 re-reads the values are still
mismatched, and the mismatch branch evaluates
`d.Get("billding_account").(string)` — the key is misspelled and absent from
the schema, so the `Get` yields nil and the string type assertion panics:
the operation crashes instead of returning the timeout error.  The billing
field does end in the mismatched, non-reverted state "BBB". -/
theorem updateProjectBillingAccount_typo_crash :
    (updateProjectBillingAccount
        { updateBillingInfo := Except.ok (),
          reads := fun _ =>
            { getProject := Except.ok {}, getBillingInfo := Except.ok "billingAccounts/BBB" } }
        { id := "p1", billing_account := "AAA" }).2 =
      GoResult.crash "interface conversion: interface is nil, not string" ∧
    (updateProjectBillingAccount
        { updateBillingInfo := Except.ok (),
          reads := fun _ =>
            { getProject := Except.ok {}, getBillingInfo := Except.ok "billingAccounts/BBB" } }
        { id := "p1", billing_account := "AAA" }).1.billing_account = "BBB" ∧
    ("BBB" : String) ≠ "AAA" := by
  refine ⟨rfl, rfl, by decide⟩

/-- Claim C1, evaluated at the failing input: the first listing response
carries next-page token "t1", yet the second listing request is issued with
an empty page token (the source never attaches a token to the request), so
the claimed "next listing request is issued with that token" fails; the
loop does stop once a response carries an empty token (two requests in
total, then the network delete). -/
theorem forceDeleteComputeNetwork_ignores_page_token :
    forceDeleteComputeNetwork
        { firewallsList := fun i _ =>
            if i = 0 then Except.ok { items := [], nextPageToken := "t1" }
            else Except.ok { items := [], nextPageToken := "" } }
        "p1" "default" 5 =
      ([{ projectId := "p1",
          filter := "network eq https://www.googleapis.com/compute/v1/projects/p1/global/networks/default",
          pageToken := "" },
        { projectId := "p1",
          filter := "network eq https://www.googleapis.com/compute/v1/projects/p1/global/networks/default",
          pageToken := "" }], none) ∧
    ("" : String) ≠ "t1" := by
  refine ⟨rfl, by decide⟩

/-! ## Claims about Create and Update -/

theorem createReadStep_trace_grows (env : CreateEnv) (projectId : String)
    (d : Record) (tr : List CreateEvent) :
    tr <+: (createReadStep env projectId d tr).2.2 := by
  unfold createReadStep
  repeat' split
  all_goals simp only [List.append_assoc]
  all_goals exact List.prefix_append _ _

theorem createBillingStep_trace_grows (env : CreateEnv) (projectId : String)
    (d : Record) (tr : List CreateEvent) :
    tr <+: (createBillingStep env projectId d tr).2.2 := by
  unfold createBillingStep
  split
  · split
    · exact (List.prefix_append tr [CreateEvent.callBilling]).trans
        (createReadStep_trace_grows env projectId _ _)
    · exact List.prefix_append _ _
  · exact createReadStep_trace_grows env projectId d tr

/-- Claim C6: if the creation submission fails, Create returns the creation
error with the record untouched (the identifier is never set, and the trace
shows no identifier write); after a successful submission the identifier is
set to the project id before the wait (the trace begins with the create
call, the identifier write, then the wait call); if the wait fails, the
identifier is cleared back to empty and the wait error is returned. -/
theorem create_id_capture (env : CreateEnv) (d : Record) :
    (∀ e, env.projectCreate = Except.error e →
      resourceGoogleProjectCreate env d =
        (d, GoResult.err ("Error creating project " ++ d.project_id ++ " (" ++ d.name ++ ")."),
          [CreateEvent.callCreate])) ∧
    (env.projectCreate = Except.ok () →
      [CreateEvent.callCreate, CreateEvent.setId d.project_id, CreateEvent.callWait] <+:
        (resourceGoogleProjectCreate env d).2.2) ∧
    (env.projectCreate = Except.ok () → ∀ w, env.operationWait = some w →
      resourceGoogleProjectCreate env d =
        ({ d with id := "" }, GoResult.err w,
          [CreateEvent.callCreate, CreateEvent.setId d.project_id, CreateEvent.callWait,
            CreateEvent.setId ""])) := by
  refine ⟨fun e herr => ?_, fun hok => ?_, fun hok w hw => ?_⟩
  · unfold resourceGoogleProjectCreate
    rw [herr]
    split <;> rfl
  · unfold resourceGoogleProjectCreate
    rw [hok]
    cases hw : env.operationWait with
    | some w => exact List.prefix_append _ _
    | none => exact createBillingStep_trace_grows _ _ _ _
  · unfold resourceGoogleProjectCreate
    rw [hok, hw]
    simp

/-- Witness for C6 at concrete inputs: a failing submission, and a
successful submission whose wait fails. -/
theorem create_id_capture_witness :
    resourceGoogleProjectCreate { projectCreate := Except.error () }
        { project_id := "p9", name := "N" } =
      (({ project_id := "p9", name := "N" } : Record),
        GoResult.err ("Error creating project " ++ "p9" ++ " (" ++ "N" ++ ")."),
        [CreateEvent.callCreate]) ∧
    resourceGoogleProjectCreate { operationWait := some "wait failed" }
        { project_id := "p9", name := "N" } =
      ({ ({ project_id := "p9", name := "N" } : Record) with id := "" },
        GoResult.err "wait failed",
        [CreateEvent.callCreate, CreateEvent.setId "p9", CreateEvent.callWait,
          CreateEvent.setId ""]) :=
  ⟨(create_id_capture { projectCreate := Except.error () } { project_id := "p9", name := "N" }).1
      () rfl,
   (create_id_capture { operationWait := some "wait failed" } { project_id := "p9", name := "N" }).2.2
      rfl "wait failed" rfl⟩

/-- Claim C8: when only the labels field changed, Update first re-fetches
the remote project and then issues exactly one full-object update call,
whose payload is the freshly-fetched object with only its labels replaced by
the new labels (name and parent unchanged from the fetch); if the re-fetch
fails, no update call is issued at all. -/
theorem update_only_labels_one_call (env : UpdateEnv) (old d : Record)
    (hname : old.name = d.name) (horg : old.org_id = d.org_id)
    (hfolder : old.folder_id = d.folder_id)
    (hbilling : old.billing_account = d.billing_account)
    (hlabels : old.labels ≠ d.labels) :
    (∀ p, env.getProject = Except.ok p →
      (resourceGoogleProjectUpdate env old d).2.2 = [{ p with labels := expandLabels d }]) ∧
    (∀ code, env.getProject = Except.error code →
      (resourceGoogleProjectUpdate env old d).2.2 = []) := by
  constructor
  · intro p hget
    unfold resourceGoogleProjectUpdate
    rw [hget]
    simp only [hname, horg, hfolder, hbilling, bne_self_eq_false, Bool.or_self]
    have hl : (old.labels != d.labels) = true := bne_iff_ne.mpr hlabels
    rw [hl]
    cases hupd : env.projectUpdate 0 { p with labels := expandLabels d } <;>
      simp [updateNameStep, updateParentStep, updateBillingStep, updateLabelsStep, hupd]
  · intro code hget
    unfold resourceGoogleProjectUpdate
    rw [hget]
    by_cases h404 : code = 404 <;> simp [h404]

/-- Witness for C8 at a concrete input: old labels empty, new labels
non-empty, everything else unchanged. -/
theorem update_only_labels_one_call_witness :
    (resourceGoogleProjectUpdate {} {} { labels := [("env", "dev")] }).2.2 =
      [{ ({} : Project) with labels := expandLabels { labels := [("env", "dev")] } }] :=
  (update_only_labels_one_call {} {} { labels := [("env", "dev")] }
      rfl rfl rfl rfl (by decide)).1 {} rfl

end GoogleProject
